import Mathlib

/-!
# Verification of the EIP-4824 proposals-URI aggregator core

Shallow embedding of `src/main.py`: the retry-capable request executor
(`safe_request`), the Redis-backed TTL cache, the off-chain fetcher
(`fetch_proposals_paginated`), the on-chain fetcher
(`fetch_onchain_proposals`) and the aggregator endpoint (`get_proposals`).

I/O is made explicit: each embedded function takes the outcome of its
upstream HTTP interaction as a parameter and returns, besides its value,
the updated cache state and the number of upstream calls it performed.
JSON (de)serialisation of cache entries is modelled as the identity on the
`(page, nextCursor)` pair, since `json.dumps`/`json.loads` round-trips the
cached 2-element array to the same data.
-/

set_option autoImplicit false

namespace Main

/-- Outcome of one `requests.post` attempt inside `safe_request`:
a 200 response with a JSON body (held opaque as a string), a non-200
status code, or a transport-level `requests.RequestException`. -/
inductive Attempt where
  | ok (body : String)
  | status (code : Nat)
  | exn
deriving DecidableEq, Repr

/-- What `safe_request` hands back to its caller: the parsed JSON body of a
200 response, the `return None` path, or the final
`raise Exception("Maximum retries exceeded ...")`. -/
inductive ReqResult where
  | success (body : String)
  | nullResult
  | retriesExhausted
deriving DecidableEq, Repr

/-- The retry loop of `safe_request` (main.py lines 29-46).  `responses i`
is the outcome of the (i+1)-th POST; `fuel` is the number of loop
iterations left, `delay` the current backoff delay in seconds.  Returns
the result, the number of POSTs made, and the list of deterministic sleep
delays (the `delay` term of `delay + random.uniform(0, delay / 2)`; the
claims ignore the jitter term). -/
def safeRequestLoop (responses : Nat → Attempt) :
    Nat → Nat → Nat → ReqResult × Nat × List Nat
  | 0, _, _ => (.retriesExhausted, 0, [])
  | fuel + 1, delay, i =>
    match responses i with
    | .ok body => (.success body, 1, [])
    | .status code =>
      if code = 429 ∨ code = 503 then
        let rest := safeRequestLoop responses fuel (delay * 2) (i + 1)
        (rest.1, rest.2.1 + 1, delay :: rest.2.2)
      else
        (.nullResult, 1, [])
    | .exn => (.nullResult, 1, [])

/-- `safe_request(url, json_payload, retries=5, initial_delay=3, headers=None)`
(main.py lines 27-46), with the HTTP interaction abstracted into
`responses`. -/
def safe_request (responses : Nat → Attempt) (retries : Nat := 5)
    (initial_delay : Nat := 3) : ReqResult × Nat × List Nat :=
  safeRequestLoop responses retries initial_delay 0

/-- An off-chain (Snapshot) proposal record.  The program treats it as an
opaque payload and only ever reads its `created` field
(`proposals[-1]['created']`, main.py line 104); the remaining fields are
collapsed into an opaque `payload` string. -/
structure Proposal where
  created : Int
  payload : String
deriving DecidableEq, Repr

/-- An on-chain (Tally) proposal node.  The program never inspects its
fields at all, so it is fully opaque. -/
structure OnchainProposal where
  payload : String
deriving DecidableEq, Repr

/-- A Redis-like key/value store: most-recent-write-first association
list of key, value and the TTL (seconds) the value was written with.
TTL expiry itself is not modelled; the theorems about cache hits assume
the entry is within its TTL, as the claims do. -/
def Store (α : Type) : Type := List (String × α × Nat)

/-- `r.get(key)`: the most recently written value under `key`, with the
TTL it was written with. -/
def storeGet {α : Type} (s : Store α) (key : String) : Option (α × Nat) :=
  (List.find? (fun e => e.1 = key) s).map (·.2)

/-- `r.set(key, value, ex=ttl)`: overwrite `key`. -/
def storeSet {α : Type} (s : Store α) (key : String) (v : α) (ttl : Nat) : Store α :=
  (key, v, ttl) :: s

/-- Python `str(...)` of an optional int, as interpolated into the cache
key f-strings: `None` prints as `"None"`. -/
def pyStr : Option Int → String
  | none => "None"
  | some n => toString n

/-- The off-chain cache key
`f"proposals-{space}-{order_direction}-{initial_created_gt}"`
(main.py line 50). -/
def offchainCacheKey (space order_direction : String)
    (initial_created_gt : Option Int) : String :=
  "proposals-" ++ space ++ "-" ++ order_direction ++ "-" ++ pyStr initial_created_gt

/-- The on-chain cache key `f"onchain-proposals-{onchain_slug}-{cursor}"`
(main.py line 117). -/
def onchainCacheKey (onchain_slug : String) (cursor : Option Int) : String :=
  "onchain-proposals-" ++ onchain_slug ++ "-" ++ pyStr cursor

/-- A cached off-chain entry: the `(proposals, last_cursor)` pair that
`json.dumps` serialises as a 2-element array (main.py line 108). -/
def OffEntry : Type := List Proposal × Option Int

/-- Outcome of the `safe_request` call made by `fetch_proposals_paginated`,
after the `data and 'data' in data and 'proposals' in data['data']`
checks: the raise propagated; `None` was returned; a JSON body missing
the `data.proposals` keys (or otherwise falsy); or a well-formed body
whose `data.proposals` is `ps`. -/
inductive OffUpstream where
  | raised
  | null
  | malformed
  | pageData (ps : List Proposal)
deriving DecidableEq, Repr

/-- What `fetch_proposals_paginated` does next: propagate the
`safe_request` raise, or return a `(proposals, last_cursor)` pair. -/
inductive OffOutcome where
  | raised
  | ok (proposals : List Proposal) (last_cursor : Option Int)
deriving DecidableEq, Repr

/-- `fetch_proposals_paginated(space, order_direction='desc',
initial_created_gt=None, force_refresh=False)` (main.py lines 48-110),
with the Redis client passed in as `cache` and the single upstream
interaction abstracted as `upstream`.  Returns the outcome, the updated
cache, and the number of upstream POSTs performed (0 or 1). -/
def fetch_proposals_paginated (cache : Store OffEntry) (upstream : OffUpstream)
    (space : String) (order_direction : String := "desc")
    (initial_created_gt : Option Int := none) (force_refresh : Bool := false) :
    OffOutcome × Store OffEntry × Nat :=
  let cache_key := offchainCacheKey space order_direction initial_created_gt
  match if force_refresh then none else storeGet cache cache_key with
  | some (cached_data, _) => (.ok cached_data.1 cached_data.2, cache, 0)
  | none =>
    match upstream with
    | .raised => (.raised, cache, 1)
    | .null => (.ok [] none, cache, 1)
    | .malformed => (.ok [] none, cache, 1)
    | .pageData proposals =>
      let last_cursor := proposals.getLast?.map Proposal.created
      (.ok proposals last_cursor,
        storeSet cache cache_key (proposals, last_cursor) 36000, 1)

/-- A cached on-chain entry: the `(proposals, onchain_cursor)` pair
serialised at main.py line 213. -/
def OnEntry : Type := List OnchainProposal × Option Int

/-- Outcome of the organization-id lookup `safe_request` (main.py lines
132-137): the raise propagated, `None` returned, a body missing
`data.organizationSlugToId` (or otherwise falsy), or the resolved id. -/
inductive OnResolve where
  | raised
  | null
  | malformed
  | orgId (organization_id : String)
deriving DecidableEq, Repr

/-- Outcome of the proposals-page `safe_request` (main.py lines 204-210),
as a function of the resolved organization id that was put into the query
variables. -/
inductive OnPage where
  | raised
  | null
  | malformed
  | page (nodes : List OnchainProposal) (lastCursor : Option Int)
deriving DecidableEq, Repr

/-- What `fetch_onchain_proposals` does: propagate a `safe_request`
raise, raise `"Failed to fetch organization ID from Tally API"`, raise
`"Failed to fetch proposals from Tally API"`, or return the
`(proposals, onchain_cursor)` pair. -/
inductive OnOutcome where
  | raisedRetries
  | raisedOrg
  | raisedPage
  | ok (proposals : List OnchainProposal) (onchain_cursor : Option Int)
deriving DecidableEq, Repr

/-- `fetch_onchain_proposals(onchain_slug, cursor=None, refresh=False)`
(main.py lines 112-215), with the Redis client as `cache` and the two
upstream interactions abstracted as `resolveUpstream` and
`pageUpstream` (the latter applied to the resolved organization id).
Returns the outcome, the updated cache, the number of organization-id
lookup POSTs and the number of proposals-page POSTs. -/
def fetch_onchain_proposals (cache : Store OnEntry) (resolveUpstream : OnResolve)
    (pageUpstream : String → OnPage) (onchain_slug : String)
    (cursor : Option Int := none) (refresh : Bool := false) :
    OnOutcome × Store OnEntry × Nat × Nat :=
  let cache_key := onchainCacheKey onchain_slug cursor
  match if refresh then none else storeGet cache cache_key with
  | some (cached_data, _) => (.ok cached_data.1 cached_data.2, cache, 0, 0)
  | none =>
    match resolveUpstream with
    | .raised => (.raisedRetries, cache, 1, 0)
    | .null => (.raisedOrg, cache, 1, 0)
    | .malformed => (.raisedOrg, cache, 1, 0)
    | .orgId organization_id =>
      match pageUpstream organization_id with
      | .raised => (.raisedRetries, cache, 1, 1)
      | .null => (.raisedPage, cache, 1, 1)
      | .malformed => (.raisedPage, cache, 1, 1)
      | .page proposals onchain_cursor =>
        (.ok proposals onchain_cursor,
          storeSet cache cache_key (proposals, onchain_cursor) 36000, 1, 1)

/-- Numeric value of a base-10 digit string. -/
def digitsVal (cs : List Char) : Nat :=
  cs.foldl (fun a c => a * 10 + (c.toNat - '0'.toNat)) 0

/-- Python's built-in `int(s)` on a string, returning `none` where it
raises `ValueError`: surrounding whitespace is ignored, an optional
`+`/`-` sign is followed by a non-empty run of decimal digits.  (Digit
grouping with underscores is not modelled; it is irrelevant to the
claims.) -/
def pythonInt (s : String) : Option Int :=
  let cs := ((s.toList.dropWhile Char.isWhitespace).reverse.dropWhile
    Char.isWhitespace).reverse
  match cs with
  | [] => none
  | c :: rest =>
    if c = '+' then
      if rest ≠ [] ∧ rest.all Char.isDigit then some (digitsVal rest) else none
    else if c = '-' then
      if rest ≠ [] ∧ rest.all Char.isDigit then some (-(digitsVal rest : Int)) else none
    else
      if (c :: rest).all Char.isDigit then some (digitsVal (c :: rest)) else none

/-- Python truthiness of `request.args.get(...)`: `None` and the empty
string are falsy (the `if onchain_slug:` test at main.py line 250). -/
def truthy : Option String → Bool
  | none => false
  | some s => s != ""

/-- The JSON body built at main.py lines 241-253: `onchain` and
`onchain_cursor` are present only when the on-chain branch ran. -/
structure ResponseBody where
  offchain : List Proposal
  offchain_cursor : Option Int
  onchain : Option (List OnchainProposal)
  onchain_cursor : Option (Option Int)
  context : String
  name : String
deriving DecidableEq, Repr

/-- What the route handler produces: a 200 with the JSON body, a 400
with an error message, or an uncaught exception that Flask turns into a
500. -/
inductive HttpResponse where
  | ok (body : ResponseBody)
  | badRequest (error : String)
  | serverError
deriving DecidableEq, Repr

/-- `GET /proposals/<space>` handler `get_proposals` (main.py lines
220-256), over explicit cache states and upstream outcomes.  The query
parameters arrive as optional raw strings, exactly as
`request.args.get` delivers them.  Returns the HTTP response, both
cache states, and the three upstream call counts (off-chain page,
organization-id lookup, on-chain page). -/
def get_proposals (offCache : Store OffEntry) (onCache : Store OnEntry)
    (offUpstream : OffUpstream) (resolveUpstream : OnResolve)
    (pageUpstream : String → OnPage) (space : String)
    (offchain_cursor_str onchain_cursor_str onchain_slug refresh_str : Option String) :
    HttpResponse × Store OffEntry × Store OnEntry × Nat × Nat × Nat :=
  let refresh := refresh_str == some "true"
  let offParsed : Except String (Option Int) :=
    match offchain_cursor_str with
    | none => .ok none
    | some s =>
      match pythonInt s with
      | some n => .ok (some n)
      | none => .error "Invalid offchain cursor format. Cursor must be an integer."
  match offParsed with
  | .error msg => (.badRequest msg, offCache, onCache, 0, 0, 0)
  | .ok offchain_cursor =>
    let onParsed : Except String (Option Int) :=
      match onchain_cursor_str with
      | none => .ok none
      | some s =>
        match pythonInt s with
        | some n => .ok (some n)
        | none => .error "Invalid onchain cursor format. Cursor must be an integer."
    match onParsed with
    | .error msg => (.badRequest msg, offCache, onCache, 0, 0, 0)
    | .ok onchain_cursor =>
      let offR := fetch_proposals_paginated offCache offUpstream space "desc"
        offchain_cursor refresh
      match offR.1 with
      | .raised => (.serverError, offR.2.1, onCache, offR.2.2, 0, 0)
      | .ok proposals_list last_cursor =>
        if truthy onchain_slug then
          let onR := fetch_onchain_proposals onCache resolveUpstream pageUpstream
            (onchain_slug.getD "") onchain_cursor refresh
          match onR.1 with
          | .ok onchain_proposals onchain_cur =>
            (.ok { offchain := proposals_list, offchain_cursor := last_cursor,
                   onchain := some onchain_proposals,
                   onchain_cursor := some onchain_cur,
                   context := "http://daostar.org/schemas", name := space },
             offR.2.1, onR.2.1, offR.2.2, onR.2.2.1, onR.2.2.2)
          | _ => (.serverError, offR.2.1, onR.2.1, offR.2.2, onR.2.2.1, onR.2.2.2)
        else
          (.ok { offchain := proposals_list, offchain_cursor := last_cursor,
                 onchain := none, onchain_cursor := none,
                 context := "http://daostar.org/schemas", name := space },
           offR.2.1, onCache, offR.2.2, 0, 0)

/-- The geometric delay ladder starting at `delay` unfolds one step. -/
theorem ladder_succ (delay n : Nat) :
    (List.range (n + 1)).map (fun j => delay * 2 ^ j)
      = delay :: (List.range n).map (fun j => delay * 2 * 2 ^ j) := by
  rw [List.range_succ_eq_map, List.map_cons, List.map_map]
  refine congrArg₂ List.cons (by simp) (List.map_congr_left fun j _ => ?_)
  simp only [Function.comp_apply, pow_succ]
  ring

/-- Rate-limited sleep ladder: if every response is a 429 or a 503, the
loop sleeps `delay`, doubles it and retries, making exactly `fuel` POSTs
and ending in the raise. -/
theorem safeRequestLoop_rateLimited (responses : Nat → Attempt)
    (h : ∀ j, responses j = .status 429 ∨ responses j = .status 503) :
    ∀ (fuel delay i : Nat),
      safeRequestLoop responses fuel delay i =
        (.retriesExhausted, fuel, (List.range fuel).map fun j => delay * 2 ^ j) := by
  intro fuel
  induction fuel with
  | zero => intro delay i; simp [safeRequestLoop]
  | succ n ih =>
    intro delay i
    rcases h i with hi | hi <;>
      simp [safeRequestLoop, hi, ih (delay * 2) (i + 1), ladder_succ]

/-- C1: when every upstream response is a 429 or a 503, `safe_request`
returns the raise (`retriesExhausted`), makes exactly `retries` POSTs
(at most `maxAttempts`, default 5), and its deterministic sleep list is
`[d, 2d, 4d, ...]`: the sleep before the i-th retry (0-indexed entry
`i - 1`) is `d * 2 ^ (i - 1)`, jitter ignored. -/
theorem safe_request_rate_limited_behavior (responses : Nat → Attempt)
    (retries d : Nat)
    (h : ∀ j, responses j = .status 429 ∨ responses j = .status 503) :
    safe_request responses retries d =
      (.retriesExhausted, retries, (List.range retries).map fun i => d * 2 ^ i) :=
  safeRequestLoop_rateLimited responses h retries d 0

/-- Witness for C1 at the concrete run where every response is a 429,
with the default `retries=5`, `initial_delay=3`: five POSTs, sleeps
3, 6, 12, 24, 48, then the raise. -/
theorem safe_request_rate_limited_behavior_witness :
    safe_request (fun _ => .status 429) 5 3 = (.retriesExhausted, 5, [3, 6, 12, 24, 48]) := by
  have h := safe_request_rate_limited_behavior (fun _ => .status 429) 5 3
    (fun _ => Or.inl rfl)
  rw [h]; decide

/-- Inside the retry loop, a transport exception or a status other than
200, 429 and 503 at the (k+1)-th remaining attempt (after k rate-limited
ones) makes the loop return `None` at once: k+1 POSTs in all, only the
k backoff sleeps that preceded the failure. -/
theorem safeRequestLoop_hard_failure (responses : Nat → Attempt) :
    ∀ (k fuel delay i : Nat), k < fuel →
      (∀ j, j < k → responses (i + j) = .status 429 ∨ responses (i + j) = .status 503) →
      (responses (i + k) = .exn
        ∨ ∃ c, responses (i + k) = .status c ∧ ¬(c = 429 ∨ c = 503)) →
      safeRequestLoop responses fuel delay i =
        (.nullResult, k + 1, (List.range k).map fun j => delay * 2 ^ j) := by
  intro k
  induction k with
  | zero =>
    intro fuel delay i hk hpre hfail
    obtain ⟨m, rfl⟩ : ∃ m, fuel = m + 1 :=
      ⟨fuel - 1, (Nat.succ_pred_eq_of_pos hk).symm⟩
    rw [Nat.add_zero] at hfail
    rcases hfail with hi | ⟨c, hi, hc⟩
    · simp [safeRequestLoop, hi]
    · simp [safeRequestLoop, hi, hc]
  | succ k ih =>
    intro fuel delay i hk hpre hfail
    obtain ⟨m, rfl⟩ : ∃ m, fuel = m + 1 :=
      ⟨fuel - 1, (Nat.succ_pred_eq_of_pos (Nat.lt_of_le_of_lt (Nat.zero_le _) hk)).symm⟩
    have hrest := ih m (delay * 2) (i + 1) (Nat.lt_of_succ_lt_succ hk)
      (fun j hj => by
        have := hpre (j + 1) (Nat.succ_lt_succ hj)
        rwa [show i + (j + 1) = i + 1 + j by ring] at this)
      (by rwa [show i + (k + 1) = i + 1 + k by ring] at hfail)
    have h0 := hpre 0 (Nat.succ_pos k)
    rw [Nat.add_zero] at h0
    rcases h0 with hi | hi <;>
      simp [safeRequestLoop, hi, hrest, ladder_succ]

/-- C4: if the first k attempts hit 429/503 and attempt k+1 raises a
transport exception or gets any status other than 200, 429 and 503,
`safe_request` returns `None` immediately: k+1 POSTs in total (nothing
after the hard failure — it is never retried) and only the k backoff
sleeps that preceded it.  k = 0 is the failure on the very first
attempt. -/
theorem safe_request_no_retry_on_hard_failure (responses : Nat → Attempt)
    (retries d k : Nat) (hk : k < retries)
    (hpre : ∀ j, j < k → responses j = .status 429 ∨ responses j = .status 503)
    (hfail : responses k = .exn ∨ ∃ c, responses k = .status c ∧ ¬(c = 429 ∨ c = 503)) :
    safe_request responses retries d
      = (.nullResult, k + 1, (List.range k).map fun j => d * 2 ^ j) :=
  safeRequestLoop_hard_failure responses k retries d 0 hk
    (fun j hj => by rw [Nat.zero_add]; exact hpre j hj)
    (by rwa [Nat.zero_add])

/-- Witness for C4 at the mid-sequence run (429, 404, ...): one backoff
sleep of 3 for the 429, then the 404 on the second POST returns `None`
with no further attempts. -/
theorem safe_request_no_retry_on_hard_failure_witness :
    safe_request (fun j => if j = 0 then .status 429 else .status 404) 5 3
      = (.nullResult, 2, [3]) := by
  rw [safe_request_no_retry_on_hard_failure
    (fun j => if j = 0 then .status 429 else .status 404) 5 3 1 (by decide)
    (fun j hj => by
      have hj0 : j = 0 := Nat.lt_one_iff.mp hj
      subst hj0
      exact Or.inl rfl)
    (Or.inr ⟨404, rfl, by decide⟩)]
  rfl

/-- A freshly written key reads back as the written value and TTL. -/
theorem storeGet_set_self {α : Type} (s : Store α) (key : String) (v : α) (ttl : Nat) :
    storeGet (storeSet s key v ttl) key = some (v, ttl) := by
  simp [storeGet, storeSet, List.find?]

/-- The off-chain fetcher on a cache hit: the cached pair comes back,
the cache is untouched, no POST is made. -/
theorem fetch_off_hit (cache : Store OffEntry) (up : OffUpstream)
    (space dir : String) (cursor : Option Int) (refresh : Bool)
    (v : OffEntry) (t : Nat)
    (hc : (if refresh = true then none
        else storeGet cache (offchainCacheKey space dir cursor)) = some (v, t)) :
    fetch_proposals_paginated cache up space dir cursor refresh = (.ok v.1 v.2, cache, 0) := by
  simp [fetch_proposals_paginated, hc]

/-- The off-chain fetcher on a cache miss with a well-formed upstream
body: the page and its last `created` come back and are written to the
cache with TTL 36000. -/
theorem fetch_off_miss_data (cache : Store OffEntry) (space dir : String)
    (cursor : Option Int) (refresh : Bool) (ps : List Proposal)
    (hc : (if refresh = true then none
        else storeGet cache (offchainCacheKey space dir cursor)) = none) :
    fetch_proposals_paginated cache (.pageData ps) space dir cursor refresh
      = (.ok ps (ps.getLast?.map Proposal.created),
         storeSet cache (offchainCacheKey space dir cursor)
           (ps, ps.getLast?.map Proposal.created) 36000, 1) := by
  simp [fetch_proposals_paginated, hc]

/-- C2: if the first off-chain call succeeded (it hit a live cache entry,
or its upstream body was well-formed so it wrote one), then a second call
with the same space, order direction and cursor and `force_refresh=False`
makes no upstream POST, leaves the cache untouched, and returns exactly
the first call's `(page, nextCursor)` value. -/
theorem fetch_proposals_second_call_cached (cache : Store OffEntry)
    (up1 up2 : OffUpstream) (space dir : String) (cursor : Option Int) (r1 : Bool)
    (h : (r1 = false ∧ (storeGet cache (offchainCacheKey space dir cursor)).isSome)
        ∨ ∃ ps, up1 = .pageData ps) :
    fetch_proposals_paginated
        (fetch_proposals_paginated cache up1 space dir cursor r1).2.1
        up2 space dir cursor false
      = ((fetch_proposals_paginated cache up1 space dir cursor r1).1,
         (fetch_proposals_paginated cache up1 space dir cursor r1).2.1, 0) := by
  rcases hc : (if r1 = true then none
      else storeGet cache (offchainCacheKey space dir cursor)) with _ | ⟨v, t⟩
  · obtain ⟨ps, rfl⟩ : ∃ ps, up1 = .pageData ps := by
      rcases h with ⟨hr, hhit⟩ | hps
      · rw [hr] at hc
        simp only [Bool.false_eq_true, if_neg, if_false] at hc
        rw [hc] at hhit
        simp at hhit
      · exact hps
    rw [fetch_off_miss_data cache space dir cursor r1 ps hc]
    exact fetch_off_hit
      (storeSet cache (offchainCacheKey space dir cursor)
        (ps, ps.getLast?.map Proposal.created) 36000)
      up2 space dir cursor false (ps, ps.getLast?.map Proposal.created) 36000
      (by simp [storeGet_set_self])
  · have hget : storeGet cache (offchainCacheKey space dir cursor) = some (v, t) := by
      cases r1
      · simpa using hc
      · simp at hc
    rw [fetch_off_hit cache up1 space dir cursor r1 v t hc]
    exact fetch_off_hit cache up2 space dir cursor false v t (by simpa using hget)

/-- Witness for C2: first call populates the cache from a one-proposal
page; the second call (whose own upstream would return `None`) makes 0
POSTs and returns the first call's output. -/
theorem fetch_proposals_second_call_cached_witness :
    fetch_proposals_paginated
        (fetch_proposals_paginated [] (.pageData [⟨100, "p"⟩]) "s" "desc" none false).2.1
        .null "s" "desc" none false
      = (.ok [⟨100, "p"⟩] (some 100),
         [("proposals-s-desc-None", ([⟨100, "p"⟩], some 100), 36000)], 0) := by
  rw [fetch_proposals_second_call_cached [] (.pageData [⟨100, "p"⟩]) .null
    "s" "desc" none false (Or.inr ⟨_, rfl⟩)]
  rfl

/-- C3: an off-chain fetch that reaches the upstream and gets a
well-formed page returns `nextCursor` equal to the `created` field of
the page's last element in upstream order, and `None` when the page is
empty. -/
theorem fetch_proposals_cursor_is_last_created (cache : Store OffEntry)
    (space dir : String) (cursor : Option Int) (refresh : Bool) (ps : List Proposal)
    (hmiss : (if refresh = true then none
        else storeGet cache (offchainCacheKey space dir cursor)) = none) :
    (fetch_proposals_paginated cache (.pageData ps) space dir cursor refresh).1
        = .ok ps (ps.getLast?.map Proposal.created) ∧
    (∀ l, ps.getLast? = some l → ps.getLast?.map Proposal.created = some l.created) ∧
    (ps = [] → ps.getLast?.map Proposal.created = none) := by
  refine ⟨?_, ?_, ?_⟩
  · rw [fetch_off_miss_data cache space dir cursor refresh ps hmiss]
  · intro l hl; rw [hl]; rfl
  · rintro rfl; rfl

/-- Witness for C3 at the spec's own example: a page with `created` 150
then 200 yields cursor 200. -/
theorem fetch_proposals_cursor_is_last_created_witness :
    (fetch_proposals_paginated [] (.pageData [⟨150, "a"⟩, ⟨200, "b"⟩])
        "s" "desc" (some 100) false).1
      = .ok [⟨150, "a"⟩, ⟨200, "b"⟩] (some 200) := by
  rw [(fetch_proposals_cursor_is_last_created [] "s" "desc" (some 100) false
    [⟨150, "a"⟩, ⟨200, "b"⟩] (by rfl)).1]
  rfl

/-- Counterexample to C5: this call reaches the upstream (one POST) but
the upstream returns `None`, so the `(page, nextCursor)` result
`([], None)` is returned without any cache write — the cache is still
empty. -/
theorem fetch_proposals_failed_upstream_not_cached :
    fetch_proposals_paginated [] .null "s" "desc" none false = (.ok [] none, [], 1) := by
  rfl

/-- C5 (amended): every off-chain fetch that reaches the upstream (cache
miss or forced refresh) *and whose response is well-formed* writes the
`(page, nextCursor)` pair under the query-shape key with TTL 36000 —
including when `force_refresh` was set and when the page is empty.  A
`None` or malformed upstream response is returned as `([], None)`
without being cached. -/
theorem fetch_proposals_cache_write_policy (cache : Store OffEntry)
    (space dir : String) (cursor : Option Int) (refresh : Bool) (ps : List Proposal)
    (h : refresh = true ∨ storeGet cache (offchainCacheKey space dir cursor) = none) :
    fetch_proposals_paginated cache (.pageData ps) space dir cursor refresh
      = (.ok ps (ps.getLast?.map Proposal.created),
         storeSet cache (offchainCacheKey space dir cursor)
           (ps, ps.getLast?.map Proposal.created) 36000, 1) := by
  apply fetch_off_miss_data
  rcases h with rfl | hmiss
  · rfl
  · cases refresh <;> simp [hmiss]

/-- Witness for C5 at a forced refresh with an empty page: the stale
entry is overwritten (most recent write first) by `([], None)` with TTL
36000, and one POST is made. -/
theorem fetch_proposals_cache_write_policy_witness :
    fetch_proposals_paginated [("proposals-s-desc-None", ([⟨1, "old"⟩], some 1), 36000)]
        (.pageData []) "s" "desc" none true
      = (.ok [] none,
         [("proposals-s-desc-None", ([], none), 36000),
          ("proposals-s-desc-None", ([⟨1, "old"⟩], some 1), 36000)], 1) := by
  rw [fetch_proposals_cache_write_policy
    [("proposals-s-desc-None", ([⟨1, "old"⟩], some 1), 36000)]
    "s" "desc" none true [] (Or.inl rfl)]
  rfl

/-- Counterexample to C6: a call whose `(slug, cursor)` result is cached
performs zero organization-id lookup POSTs (the count would be 1 if the
resolution ran; the `.null` resolution outcome would even have raised).
The cache lookup at main.py lines 119-122 precedes the resolution. -/
theorem fetch_onchain_cached_call_skips_resolution :
    fetch_onchain_proposals
        [("onchain-proposals-org-5", ([⟨"n"⟩], some 6), 36000)]
        .null (fun _ => .null) "org" (some 5) false
      = (.ok [⟨"n"⟩] (some 6),
         [("onchain-proposals-org-5", ([⟨"n"⟩], some 6), 36000)], 0, 0) := by
  rfl

/-- C6 (amended): the on-chain cache, keyed by `(slug, input cursor)`,
brackets *both* steps: a live cache hit returns the cached pair with
zero resolution POSTs and zero page POSTs, while a cache miss performs
the resolution exactly once (there is no separate cache for it) and, on
success of both steps, writes the step-2 pair under the key with TTL
36000. -/
theorem fetch_onchain_cache_brackets_both_steps (cache : Store OnEntry)
    (res : OnResolve) (pageU : String → OnPage) (slug : String)
    (cursor : Option Int) (v : OnEntry) (t : Nat) :
    (storeGet cache (onchainCacheKey slug cursor) = some (v, t) →
      fetch_onchain_proposals cache res pageU slug cursor false
        = (.ok v.1 v.2, cache, 0, 0)) ∧
    (storeGet cache (onchainCacheKey slug cursor) = none →
      (fetch_onchain_proposals cache res pageU slug cursor false).2.2.1 = 1) ∧
    (storeGet cache (onchainCacheKey slug cursor) = none →
      ∀ oid nodes lc, res = .orgId oid → pageU oid = .page nodes lc →
        fetch_onchain_proposals cache res pageU slug cursor false
          = (.ok nodes lc,
             storeSet cache (onchainCacheKey slug cursor) (nodes, lc) 36000, 1, 1)) := by
  refine ⟨fun hhit => ?_, fun hmiss => ?_, fun hmiss oid nodes lc hres hpage => ?_⟩
  · simp [fetch_onchain_proposals, hhit]
  · cases res with
    | orgId oid => cases hpg : pageU oid <;>
        simp [fetch_onchain_proposals, hmiss, hpg]
    | _ => simp [fetch_onchain_proposals, hmiss]
  · subst hres
    simp [fetch_onchain_proposals, hmiss, hpage]

/-- Witness for C6 on the miss path: empty cache, successful resolution
and page fetch; one resolution POST, one page POST, and the pair is
cached under the `(slug, cursor)` key. -/
theorem fetch_onchain_cache_brackets_both_steps_witness :
    fetch_onchain_proposals [] (.orgId "2206072050458560434")
        (fun _ => .page [⟨"x"⟩] (some 7)) "uniswap" none false
      = (.ok [⟨"x"⟩] (some 7),
         [("onchain-proposals-uniswap-None", ([⟨"x"⟩], some 7), 36000)], 1, 1) := by
  rw [(fetch_onchain_cache_brackets_both_steps [] (.orgId "2206072050458560434")
      (fun _ => .page [⟨"x"⟩] (some 7)) "uniswap" none ([], none) 0).2.2
    rfl "2206072050458560434" [⟨"x"⟩] (some 7) rfl rfl]
  rfl

/-- Counterexample to C7: a request whose off-chain cursor is absent and
whose on-chain cursor is the non-numeric string `"abc"` gets a 400 — so
the on-chain cursor is *not* accepted as an opaque pass-through string,
and a 400 is not returned only for the off-chain cursor. -/
theorem get_proposals_onchain_cursor_parsed_as_int :
    get_proposals [] [] .null .null (fun _ => .null) "test-space"
        none (some "abc") (some "org") none
      = (.badRequest "Invalid onchain cursor format. Cursor must be an integer.",
         [], [], 0, 0, 0) := by
  rfl

/-- C7 (amended): both cursor query parameters are validated as integers
before any fetch.  A non-numeric off-chain cursor yields the off-chain
400; with a parseable (or absent) off-chain cursor, a non-numeric
on-chain cursor yields the on-chain 400.  In every 400 case zero
upstream POSTs are made and both caches are untouched; the on-chain
fetcher receives the parsed integer, not the raw string. -/
theorem get_proposals_cursor_validation (offCache : Store OffEntry)
    (onCache : Store OnEntry) (offU : OffUpstream) (resU : OnResolve)
    (pageU : String → OnPage) (space : String)
    (slug refresh_str : Option String) (s : String)
    (hbad : pythonInt s = none) :
    (∀ ocs, get_proposals offCache onCache offU resU pageU space (some s) ocs slug refresh_str
        = (.badRequest "Invalid offchain cursor format. Cursor must be an integer.",
           offCache, onCache, 0, 0, 0)) ∧
    (∀ s0 n, pythonInt s0 = some n →
      get_proposals offCache onCache offU resU pageU space (some s0) (some s) slug refresh_str
        = (.badRequest "Invalid onchain cursor format. Cursor must be an integer.",
           offCache, onCache, 0, 0, 0)) ∧
    (get_proposals offCache onCache offU resU pageU space none (some s) slug refresh_str
        = (.badRequest "Invalid onchain cursor format. Cursor must be an integer.",
           offCache, onCache, 0, 0, 0)) := by
  refine ⟨fun ocs => ?_, fun s0 n hok => ?_, ?_⟩
  · simp [get_proposals, hbad]
  · simp [get_proposals, hbad, hok]
  · simp [get_proposals, hbad]

/-- Witness for C7 at `offchain_cursor="100"`, `onchain_cursor="abc"`:
the on-chain 400 with zero upstream POSTs. -/
theorem get_proposals_cursor_validation_witness :
    get_proposals [] [] .null .null (fun _ => .null) "test-space"
        (some "100") (some "abc") (some "org") none
      = (.badRequest "Invalid onchain cursor format. Cursor must be an integer.",
         [], [], 0, 0, 0) :=
  (get_proposals_cursor_validation [] [] .null .null (fun _ => .null) "test-space"
    (some "org") none "abc" (by rfl)).2.1 "100" 100 (by rfl)

/-- An off-chain fetch whose upstream body is well-formed never
propagates a raise: its first component is always an `ok` pair. -/
theorem fetch_off_pageData_ok (cache : Store OffEntry) (space dir : String)
    (cursor : Option Int) (refresh : Bool) (ps : List Proposal) :
    ∃ pg lc, (fetch_proposals_paginated cache (.pageData ps) space dir cursor refresh).1
      = .ok pg lc := by
  rcases hc : (if refresh = true then none
      else storeGet cache (offchainCacheKey space dir cursor)) with _ | ⟨v, t⟩
  · rw [fetch_off_miss_data cache space dir cursor refresh ps hc]
    exact ⟨_, _, rfl⟩
  · rw [fetch_off_hit cache (.pageData ps) space dir cursor refresh v t hc]
    exact ⟨_, _, rfl⟩

/-- On a cache miss, a failed organization-id resolution makes
`fetch_onchain_proposals` raise after exactly one lookup POST and zero
page POSTs, leaving the cache untouched. -/
theorem fetch_onchain_resolution_failure (cache : Store OnEntry)
    (res : OnResolve) (pageU : String → OnPage) (slug : String)
    (cursor : Option Int) (refresh : Bool)
    (hmiss : (if refresh = true then none
        else storeGet cache (onchainCacheKey slug cursor)) = none)
    (hres : res = .null ∨ res = .malformed ∨ res = .raised) :
    ∃ f, fetch_onchain_proposals cache res pageU slug cursor refresh = (f, cache, 1, 0)
      ∧ (f = .raisedOrg ∨ f = .raisedRetries) := by
  rcases hres with rfl | rfl | rfl
  · exact ⟨.raisedOrg, by simp [fetch_onchain_proposals, hmiss], Or.inl rfl⟩
  · exact ⟨.raisedOrg, by simp [fetch_onchain_proposals, hmiss], Or.inl rfl⟩
  · exact ⟨.raisedRetries, by simp [fetch_onchain_proposals, hmiss], Or.inr rfl⟩

/-- Counterexample to C8: the off-chain fetch succeeds (one POST, its
page is even written to the off-chain cache), the organization
resolution fails, and the handler's response is the bare 500 — the
already-successful off-chain result appears in no response body; it is
discarded along with the rest of the envelope. -/
theorem get_proposals_offchain_discarded_on_onchain_failure :
    get_proposals [] [] (.pageData [⟨100, "p"⟩]) .null (fun _ => .null) "s"
        none none (some "org") none
      = (.serverError, [("proposals-s-desc-None", ([⟨100, "p"⟩], some 100), 36000)],
         [], 1, 1, 0) := by
  rfl

/-- C8 (amended): when the off-chain fetch succeeds, an on-chain
organization-resolution failure propagates as an uncaught exception and
the request fails as a whole (Flask's 500) — the response unambiguously
indicates failure rather than omitting the `onchain` key, but the
already-fetched off-chain result is discarded from the response; only
its cache write survives (the off-chain cache state is exactly what the
off-chain fetch produced). -/
theorem get_proposals_onchain_failure_propagates (offCache : Store OffEntry)
    (onCache : Store OnEntry) (ps : List Proposal) (res : OnResolve)
    (pageU : String → OnPage) (space : String) (slug refresh_str : Option String)
    (hres : res = .null ∨ res = .malformed ∨ res = .raised)
    (hslug : truthy slug = true)
    (honmiss : storeGet onCache (onchainCacheKey (slug.getD "") none) = none) :
    (get_proposals offCache onCache (.pageData ps) res pageU space
        none none slug refresh_str).1 = .serverError ∧
    (get_proposals offCache onCache (.pageData ps) res pageU space
        none none slug refresh_str).2.1
      = (fetch_proposals_paginated offCache (.pageData ps) space "desc" none
          (refresh_str == some "true")).2.1 := by
  obtain ⟨pg, lc, hoff1⟩ :=
    fetch_off_pageData_ok offCache space "desc" none (refresh_str == some "true") ps
  obtain ⟨f, honr, hf⟩ := fetch_onchain_resolution_failure onCache res pageU
    (slug.getD "") none (refresh_str == some "true")
    (by cases refresh_str == some "true" <;> simp [honmiss]) hres
  constructor <;>
    rcases hf with rfl | rfl <;>
      simp [get_proposals, hoff1, hslug, honr]

/-- Witness for C8: empty caches, one off-chain proposal, malformed
resolution body for slug `dao`; the response is a 500 while the
off-chain page sits in the off-chain cache. -/
theorem get_proposals_onchain_failure_propagates_witness :
    (get_proposals [] [] (.pageData [⟨1, "q"⟩]) .malformed (fun _ => .null)
        "dao-space" none none (some "dao") none).1 = .serverError ∧
    (get_proposals [] [] (.pageData [⟨1, "q"⟩]) .malformed (fun _ => .null)
        "dao-space" none none (some "dao") none).2.1
      = [("proposals-dao-space-desc-None", ([⟨1, "q"⟩], some 1), 36000)] := by
  have h := get_proposals_onchain_failure_propagates [] [] [⟨1, "q"⟩] .malformed
    (fun _ => .null) "dao-space" (some "dao") none
    (Or.inr (Or.inl rfl)) rfl rfl
  exact ⟨h.1, by rw [h.2]; rfl⟩

/-- Counterexample to C9: two off-chain key-input tuples that differ in
the space and order-direction components collide when the space contains
the delimiter character: `("a-b", "c")` and `("a", "b-c")` with the same
cursor produce the same key string. -/
theorem offchainCacheKey_not_injective :
    ("a-b", "c") ≠ ("a", "b-c") ∧
    offchainCacheKey "a-b" "c" (some 5) = offchainCacheKey "a" "b-c" (some 5) := by
  exact ⟨by decide, rfl⟩

/-- C9 (amended): key derivation discriminates the cursor — with the
other components fixed, cursors whose printed forms differ (in
particular 5 versus 6) give distinct off-chain keys and distinct
on-chain keys, for every space/slug string including ones containing the
delimiter — and an off-chain key never collides with an on-chain key;
but the derivation is not injective over arbitrary (space, direction)
pairs (see the counterexample). -/
theorem cacheKey_cursor_discriminates (space dir : String) (c1 c2 : Option Int)
    (h : pyStr c1 ≠ pyStr c2) :
    offchainCacheKey space dir c1 ≠ offchainCacheKey space dir c2 ∧
    onchainCacheKey space c1 ≠ onchainCacheKey space c2 ∧
    ∀ (slug : String) (c : Option Int),
      offchainCacheKey space dir c1 ≠ onchainCacheKey slug c := by
  refine ⟨fun he => h ?_, fun he => h ?_, fun slug c he => ?_⟩
  · have hd := congrArg String.data he
    simp only [offchainCacheKey, String.data_append] at hd
    exact String.ext (List.append_cancel_left hd)
  · have hd := congrArg String.data he
    simp only [onchainCacheKey, String.data_append] at hd
    exact String.ext (List.append_cancel_left hd)
  · have hd := congrArg String.data he
    simp only [offchainCacheKey, onchainCacheKey, String.data_append] at hd
    have h0 := congrArg List.head? hd
    simp at h0

/-- Witness for C9 at the claim's own instance: cursors 5 and 6 under
space `a` give different keys, and the off-chain key never equals an
on-chain key. -/
theorem cacheKey_cursor_discriminates_witness :
    offchainCacheKey "a" "desc" (some 5) ≠ offchainCacheKey "a" "desc" (some 6) ∧
    offchainCacheKey "a" "desc" (some 5) ≠ onchainCacheKey "a" (some 5) := by
  have h := cacheKey_cursor_discriminates "a" "desc" (some 5) (some 6) (by decide)
  exact ⟨h.1, h.2.2 "a" (some 5)⟩

/-- C10: supplying `onchain=` as the empty string is exactly the same as
omitting the parameter: the handler's entire result — response, both
caches, all three call counts — coincides, so no on-chain fetch happens
and the body carries neither `onchain` nor `onchain_cursor`. -/
theorem get_proposals_empty_onchain_param_like_absent (offCache : Store OffEntry)
    (onCache : Store OnEntry) (offU : OffUpstream) (resU : OnResolve)
    (pageU : String → OnPage) (space : String)
    (ocs1 ocs2 refresh_str : Option String) :
    get_proposals offCache onCache offU resU pageU space ocs1 ocs2 (some "") refresh_str
      = get_proposals offCache onCache offU resU pageU space ocs1 ocs2 none refresh_str := by
  rfl

end Main
